import Mathlib

/-!
Shallow embedding of `controllers/factory/psp/psp.go` from the
VictoriaMetrics operator repository fragment.

Modelling conventions:
* A Go `map[string]string` is modelled extensionally by its content as a
  function `String → Option String` (`SMap`); Go map iteration order is
  irrelevant to the final content of every merge the code performs.
* `labels.Merge` is the third-party `k8s.io/apimachinery/pkg/labels.Merge`:
  it copies the first map and then the second map over it, so on a key
  collision the SECOND argument wins (per its upstream documentation and
  source).  It is embedded as `labelsMerge`.
* The remote object store reached through the controller-runtime client is
  modelled as a `Store`: one list of objects per kind.  `Get` is a lookup
  by name+namespace, the cluster-wide `List` scan is a scan over the list
  in order, `Create` appends, `Update` replaces the objects with the same
  identifying name.
* Store faults (network/permission errors of individual client calls) are
  injected through a `Faults` record passed alongside the store, mirroring
  how `rclient` is passed in the Go code; `none` means the call succeeds
  against the store, `some msg` means the call fails with that message.
  A lookup fault is a NON-not-found error: "not found" is represented by
  absence of the object in the store, exactly as `errors.IsNotFound`
  distinguishes it in the Go code.
-/

/-- Content of a Go `map[string]string`. -/
def SMap : Type := String → Option String

/-- Embedding of `k8s.io/apimachinery/pkg/labels.Merge m1 m2`: both maps
combined, the second map winning on a key collision. -/
def labelsMerge (m1 m2 : SMap) : SMap := fun k =>
  match m2 k with
  | some v => some v
  | none => m1 k

/-- Modelled from the spec: the fixed ownership token
(`v1beta1.FinalizerName` of the operator's api package, which is outside
the given source tree); the spec calls it "a fixed marker value used to
mark an object as managed by this reconciler". -/
def FinalizerName : String := "apps.victoriametrics.com/finalizer"

/-- Modelled from the spec: `v1beta1.MergeFinalizers(obj, token)` of the
operator's api package (outside the given source tree); per the spec the
result is "the union of existing finalizers and the ownership token",
i.e. "the finalizer token is added if missing". -/
def MergeFinalizers (existing : List String) (token : String) : List String :=
  if token ∈ existing then existing else existing ++ [token]

/-- The descriptor capability contract (`CRDObject` interface): all
accessors are pure, so the interface is embedded as a record of its
observations. -/
structure CRDObject where
  annotations : SMap
  labels : SMap
  prefixedName : String
  serviceAccountName : String
  pspName : String
  nsName : String

/-- `v1.ServiceAccount`: the fields the code reads or writes. -/
structure ServiceAccount where
  name : String
  namespaceName : String
  labels : SMap
  annotations : SMap
  finalizers : List String
  secrets : List String

/-- `v1beta1.PodSecurityPolicySpec`: the fields `BuildPSP` sets.
Strategy rules and volume source types are carried as their k8s string
constant values. -/
structure PodSecurityPolicySpec where
  readOnlyRootFilesystem : Bool
  volumes : List String
  allowPrivilegeEscalation : Option Bool
  hostNetwork : Bool
  runAsUserRule : String
  seLinuxRule : String
  supplementalGroupsRule : String
  fsGroupRule : String
  hostPID : Bool
  hostIPC : Bool
  requiredDropCapabilities : List String
deriving DecidableEq

/-- `v1beta1.PodSecurityPolicy`. -/
structure PodSecurityPolicy where
  name : String
  namespaceName : String
  labels : SMap
  annotations : SMap
  finalizers : List String
  spec : PodSecurityPolicySpec

/-- `rbacv1.PolicyRule`: the fields the code sets. -/
structure PolicyRule where
  resources : List String
  verbs : List String
  apiGroups : List String
  resourceNames : List String
deriving DecidableEq

/-- `rbacv1.ClusterRole`. -/
structure ClusterRole where
  name : String
  namespaceName : String
  labels : SMap
  annotations : SMap
  finalizers : List String
  rules : List PolicyRule

/-- `rbacv1.Subject`. -/
structure Subject where
  kind : String
  name : String
  namespaceName : String
deriving DecidableEq

/-- `rbacv1.RoleRef`. -/
structure RoleRef where
  apiGroup : String
  name : String
  kind : String
deriving DecidableEq

/-- `rbacv1.ClusterRoleBinding`. -/
structure ClusterRoleBinding where
  name : String
  namespaceName : String
  labels : SMap
  annotations : SMap
  finalizers : List String
  subjects : List Subject
  roleRef : RoleRef

/-- The remote object store: one collection per managed object kind. -/
structure Store where
  serviceAccounts : List ServiceAccount
  psps : List PodSecurityPolicy
  clusterRoles : List ClusterRole
  clusterRoleBindings : List ClusterRoleBinding

/-- The store with no objects of any kind. -/
def emptyStore : Store :=
  { serviceAccounts := [], psps := [], clusterRoles := [], clusterRoleBindings := [] }

/-- Injected store faults, one per client call the code performs; `none`
means the call succeeds. -/
structure Faults where
  getSA : Option String
  createSA : Option String
  updateSA : Option String
  listPSP : Option String
  createPSP : Option String
  updatePSP : Option String
  listCR : Option String
  createCR : Option String
  updateCR : Option String
  listCRB : Option String
  createCRB : Option String
  updateCRB : Option String

/-- A fault-free client. -/
def noFaults : Faults :=
  { getSA := none, createSA := none, updateSA := none,
    listPSP := none, createPSP := none, updatePSP := none,
    listCR := none, createCR := none, updateCR := none,
    listCRB := none, createCRB := none, updateCRB := none }

/-- `rclient.Update` for ServiceAccounts: replace the stored object with
the same name and namespace. -/
def updateSAList (l : List ServiceAccount) (u : ServiceAccount) : List ServiceAccount :=
  l.map (fun a => if a.name == u.name && a.namespaceName == u.namespaceName then u else a)

/-- `rclient.Update` for PodSecurityPolicies (cluster-scoped): replace the
stored object with the same name. -/
def updatePSPList (l : List PodSecurityPolicy) (u : PodSecurityPolicy) : List PodSecurityPolicy :=
  l.map (fun p => if p.name == u.name then u else p)

/-- `rclient.Update` for ClusterRoles. -/
def updateCRList (l : List ClusterRole) (u : ClusterRole) : List ClusterRole :=
  l.map (fun r => if r.name == u.name then u else r)

/-- `rclient.Update` for ClusterRoleBindings. -/
def updateCRBList (l : List ClusterRoleBinding) (u : ClusterRoleBinding) : List ClusterRoleBinding :=
  l.map (fun r => if r.name == u.name then u else r)

/-- `buildSA` (psp.go:144-154). -/
def buildSA (cr : CRDObject) : ServiceAccount :=
  { name := cr.serviceAccountName,
    namespaceName := cr.nsName,
    labels := cr.labels,
    annotations := cr.annotations,
    finalizers := [FinalizerName],
    secrets := [] }

/-- `buildClusterRoleForPSP` (psp.go:156-174). -/
def buildClusterRoleForPSP (cr : CRDObject) : ClusterRole :=
  { namespaceName := cr.nsName,
    name := cr.prefixedName,
    labels := cr.labels,
    annotations := cr.annotations,
    finalizers := [FinalizerName],
    rules := [
      { resources := ["podsecuritypolicies"],
        verbs := ["use"],
        apiGroups := ["policy"],
        resourceNames := [cr.pspName] } ] }

/-- `buildClusterRoleBinding` (psp.go:176-198); `rbacv1.ServiceAccountKind`
is the string constant "ServiceAccount" and `rbacv1.GroupName` is
"rbac.authorization.k8s.io". -/
def buildClusterRoleBinding (cr : CRDObject) : ClusterRoleBinding :=
  { name := cr.prefixedName,
    namespaceName := cr.nsName,
    labels := cr.labels,
    annotations := cr.annotations,
    finalizers := [FinalizerName],
    subjects := [
      { kind := "ServiceAccount",
        name := cr.serviceAccountName,
        namespaceName := cr.nsName } ],
    roleRef := {
      apiGroup := "rbac.authorization.k8s.io",
      name := cr.prefixedName,
      kind := "ClusterRole" } }

/-- `BuildPSP` (psp.go:200-234); the seven `v1beta1.FSType` constants are
carried by their k8s string values, the four strategy rules are all
`RunAsAny`. -/
def BuildPSP (cr : CRDObject) : PodSecurityPolicy :=
  { name := cr.pspName,
    namespaceName := cr.nsName,
    labels := cr.labels,
    annotations := cr.annotations,
    finalizers := [FinalizerName],
    spec := {
      readOnlyRootFilesystem := false,
      volumes := ["persistentVolumeClaim", "secret", "emptyDir", "configMap",
        "projected", "downwardAPI", "nfs"],
      allowPrivilegeEscalation := some false,
      hostNetwork := true,
      runAsUserRule := "RunAsAny",
      seLinuxRule := "RunAsAny",
      supplementalGroupsRule := "RunAsAny",
      fsGroupRule := "RunAsAny",
      hostPID := false,
      hostIPC := false,
      requiredDropCapabilities := ["ALL"] } }

/-- `CreateServiceAccountForCRD` (psp.go:50-64).  The lookup is a `Get` by
name+namespace; a lookup fault is a non-not-found error and returns
wrapped; absence is the not-found error and triggers the create path; on
the found path finalizers/annotations/labels are merged and secrets
carried over, then an update is issued. -/
def CreateServiceAccountForCRD (flt : Faults) (cr : CRDObject) (s : Store) :
    Except String Unit × Store :=
  let newSA := buildSA cr
  match flt.getSA with
  | some e =>
    (Except.error ("cannot get ServiceAccount for given CRD Object=" ++
      cr.prefixedName ++ ", err=" ++ e), s)
  | none =>
    match s.serviceAccounts.find?
        (fun a => a.name == cr.serviceAccountName && a.namespaceName == cr.nsName) with
    | none =>
      match flt.createSA with
      | some e => (Except.error e, s)
      | none => (Except.ok (), { s with serviceAccounts := s.serviceAccounts ++ [newSA] })
    | some existSA =>
      let upd : ServiceAccount :=
        { newSA with
          finalizers := MergeFinalizers existSA.finalizers FinalizerName,
          annotations := labelsMerge newSA.annotations existSA.annotations,
          labels := labelsMerge existSA.labels newSA.labels,
          secrets := existSA.secrets }
      match flt.updateSA with
      | some e => (Except.error e, s)
      | none => (Except.ok (), { s with serviceAccounts := updateSAList s.serviceAccounts upd })

/-- `ensurePSPExists` (psp.go:66-92).  The lookup is the cluster-wide list
scan (`k8stools.ListClusterWideObjects`) picking the first policy whose
name equals the desired policy's name; the Go code detects "found" by
`existPSP.Name != ""`.  On found, the ownership guard compares the
descriptor's configured policy name against its derived default name and
bails out with success when they differ; otherwise it merges (annotations
with the EXISTING OBJECT'S LABELS, per psp.go:88) and updates. -/
def ensurePSPExists (flt : Faults) (cr : CRDObject) (s : Store) :
    Except String Unit × Store :=
  let defaultPSP := BuildPSP cr
  match flt.listPSP with
  | some e => (Except.error e, s)
  | none =>
    let found := s.psps.find? (fun p => p.name == defaultPSP.name)
    match found with
    | none =>
      match flt.createPSP with
      | some e => (Except.error e, s)
      | none => (Except.ok (), { s with psps := s.psps ++ [defaultPSP] })
    | some existPSP =>
      if existPSP.name == "" then
        match flt.createPSP with
        | some e => (Except.error e, s)
        | none => (Except.ok (), { s with psps := s.psps ++ [defaultPSP] })
      else if cr.pspName != cr.prefixedName then
        (Except.ok (), s)
      else
        let upd : PodSecurityPolicy :=
          { defaultPSP with
            annotations := labelsMerge defaultPSP.annotations existPSP.labels,
            labels := labelsMerge existPSP.labels defaultPSP.labels,
            finalizers := MergeFinalizers existPSP.finalizers FinalizerName }
        match flt.updatePSP with
        | some e => (Except.error e, s)
        | none => (Except.ok (), { s with psps := updatePSPList s.psps upd })

/-- `ensureClusterRoleExists` (psp.go:94-117): scan by name, create when
absent, otherwise merge annotations/labels/finalizers and update (no
ownership guard). -/
def ensureClusterRoleExists (flt : Faults) (cr : CRDObject) (s : Store) :
    Except String Unit × Store :=
  let clusterRole := buildClusterRoleForPSP cr
  match flt.listCR with
  | some e => (Except.error e, s)
  | none =>
    let found := s.clusterRoles.find? (fun r => r.name == clusterRole.name)
    match found with
    | none =>
      match flt.createCR with
      | some e => (Except.error e, s)
      | none => (Except.ok (), { s with clusterRoles := s.clusterRoles ++ [clusterRole] })
    | some existsCR =>
      if existsCR.name == "" then
        match flt.createCR with
        | some e => (Except.error e, s)
        | none => (Except.ok (), { s with clusterRoles := s.clusterRoles ++ [clusterRole] })
      else
        let upd : ClusterRole :=
          { clusterRole with
            annotations := labelsMerge clusterRole.annotations existsCR.annotations,
            labels := labelsMerge existsCR.labels clusterRole.labels,
            finalizers := MergeFinalizers existsCR.finalizers FinalizerName }
        match flt.updateCR with
        | some e => (Except.error e, s)
        | none => (Except.ok (), { s with clusterRoles := updateCRList s.clusterRoles upd })

/-- `ensureClusterRoleBindingExists` (psp.go:119-142): same scan-and-merge
pattern as the cluster role, no ownership guard. -/
def ensureClusterRoleBindingExists (flt : Faults) (cr : CRDObject) (s : Store) :
    Except String Unit × Store :=
  let clusterRoleBinding := buildClusterRoleBinding cr
  match flt.listCRB with
  | some e => (Except.error e, s)
  | none =>
    let found := s.clusterRoleBindings.find? (fun r => r.name == clusterRoleBinding.name)
    match found with
    | none =>
      match flt.createCRB with
      | some e => (Except.error e, s)
      | none =>
        (Except.ok (),
          { s with clusterRoleBindings := s.clusterRoleBindings ++ [clusterRoleBinding] })
    | some existsCRB =>
      if existsCRB.name == "" then
        match flt.createCRB with
        | some e => (Except.error e, s)
        | none =>
          (Except.ok (),
            { s with clusterRoleBindings := s.clusterRoleBindings ++ [clusterRoleBinding] })
      else
        let upd : ClusterRoleBinding :=
          { clusterRoleBinding with
            labels := labelsMerge existsCRB.labels clusterRoleBinding.labels,
            annotations := labelsMerge clusterRoleBinding.annotations existsCRB.annotations,
            finalizers := MergeFinalizers existsCRB.finalizers FinalizerName }
        match flt.updateCRB with
        | some e => (Except.error e, s)
        | none =>
          (Except.ok (),
            { s with clusterRoleBindings := updateCRBList s.clusterRoleBindings upd })

/-- `CreateOrUpdateServiceAccountWithPSP` (psp.go:36-48): the three ensure
steps in fixed order, each failure wrapped with its step message and
returned immediately. -/
def CreateOrUpdateServiceAccountWithPSP (flt : Faults) (cr : CRDObject) (s : Store) :
    Except String Unit × Store :=
  match ensurePSPExists flt cr s with
  | (Except.error e, s1) => (Except.error ("failed check policy: " ++ e), s1)
  | (Except.ok _, s1) =>
    match ensureClusterRoleExists flt cr s1 with
    | (Except.error e, s2) => (Except.error ("failed check clusterrole: " ++ e), s2)
    | (Except.ok _, s2) =>
      match ensureClusterRoleBindingExists flt cr s2 with
      | (Except.error e, s3) => (Except.error ("failed check clusterrolebinding: " ++ e), s3)
      | (Except.ok _, s3) => (Except.ok (), s3)

/-- One reconciliation pass as the spec's testable properties exercise it:
`EnsureAll` followed by `EnsureIdentity`, keeping only the store. -/
def runBoth (cr : CRDObject) (s : Store) : Store :=
  (CreateServiceAccountForCRD noFaults cr
    (CreateOrUpdateServiceAccountWithPSP noFaults cr s).2).2

/-! ### Helper lemmas -/

/-- Merging a map content with itself changes nothing. -/
lemma labelsMerge_self (m : SMap) : labelsMerge m m = m := by
  funext k
  unfold labelsMerge
  cases m k <;> rfl

/-- The state reached by one `EnsureAll`+`EnsureIdentity` pass from the
empty store: one created object per kind, each the plain builder output. -/
lemma runBoth_from_empty (cr : CRDObject) :
    runBoth cr emptyStore =
      { serviceAccounts := [buildSA cr], psps := [BuildPSP cr],
        clusterRoles := [buildClusterRoleForPSP cr],
        clusterRoleBindings := [buildClusterRoleBinding cr] } := rfl

/-- One `EnsureAll`+`EnsureIdentity` pass over the store shape produced by
earlier passes (all four objects present, only the policy's annotations
varying): the identity, role and binding updates are no-ops in effect, and
the owned policy's annotations are rewritten to the desired annotations
merged with the descriptor's labels, independently of their prior value. -/
lemma runBoth_step (cr : CRDObject) (A : SMap)
    (hpref : cr.prefixedName ≠ "")
    (howned : cr.pspName = cr.prefixedName) :
    runBoth cr
      { serviceAccounts := [buildSA cr], psps := [{ BuildPSP cr with annotations := A }],
        clusterRoles := [buildClusterRoleForPSP cr],
        clusterRoleBindings := [buildClusterRoleBinding cr] } =
      { serviceAccounts := [buildSA cr],
        psps := [{ BuildPSP cr with annotations := labelsMerge cr.annotations cr.labels }],
        clusterRoles := [buildClusterRoleForPSP cr],
        clusterRoleBindings := [buildClusterRoleBinding cr] } := by
  simp only [runBoth, CreateOrUpdateServiceAccountWithPSP, CreateServiceAccountForCRD,
    ensurePSPExists, ensureClusterRoleExists, ensureClusterRoleBindingExists, noFaults,
    BuildPSP, buildSA, buildClusterRoleForPSP, buildClusterRoleBinding,
    updatePSPList, updateCRList, updateCRBList, updateSAList,
    MergeFinalizers, labelsMerge_self, List.find?]
  simp [hpref, howned, labelsMerge_self, MergeFinalizers, List.find?]

/-! ### Concrete inputs for witnesses and counterexamples -/

/-- A single-entry map content. -/
def demoMap (k v : String) : SMap := fun q => if q == k then some v else none

/-- The empty map content. -/
def emptyMap : SMap := fun _ => none

/-- A descriptor whose configured policy name equals its derived default
name (it owns its policy). -/
def crDemo : CRDObject :=
  { annotations := emptyMap, labels := emptyMap, prefixedName := "app1",
    serviceAccountName := "app1", pspName := "app1", nsName := "ns1" }

/-- A descriptor referencing a foreign/shared policy: its configured
policy name differs from its derived default name. -/
def crShared : CRDObject :=
  { annotations := emptyMap, labels := emptyMap, prefixedName := "app1",
    serviceAccountName := "app1", pspName := "shared-psp", nsName := "ns1" }

/-- A pre-existing foreign policy object named like `crShared`'s configured
policy name, carrying an external label and an external finalizer. -/
def pspForeign : PodSecurityPolicy :=
  { name := "shared-psp", namespaceName := "",
    labels := demoMap "ext" "1", annotations := emptyMap,
    finalizers := ["external-finalizer"], spec := (BuildPSP crShared).spec }

/-- A store holding only the foreign policy. -/
def storeForeign : Store := { emptyStore with psps := [pspForeign] }

/-- A descriptor with desired label team=b and desired annotation note=new. -/
def crMergeCex : CRDObject :=
  { annotations := demoMap "note" "new", labels := demoMap "team" "b",
    prefixedName := "app1", serviceAccountName := "app1", pspName := "app1",
    nsName := "ns1" }

/-- An existing ServiceAccount with label team=a and annotation note=old. -/
def saMergeCex : ServiceAccount :=
  { name := "app1", namespaceName := "ns1",
    labels := demoMap "team" "a", annotations := demoMap "note" "old",
    finalizers := [], secrets := [] }

/-- A store holding only `saMergeCex`. -/
def storeMergeCex : Store := { emptyStore with serviceAccounts := [saMergeCex] }

/-- An owning descriptor whose labels carry a key (x=b) absent from its
annotations. -/
def crDrift : CRDObject :=
  { annotations := emptyMap, labels := demoMap "x" "b",
    prefixedName := "app1", serviceAccountName := "app1", pspName := "app1",
    nsName := "ns1" }

/-- An existing policy named like `crDemo`'s configured (and owned) policy
name, with an external label, annotation and finalizer. -/
def pspOwnedExist : PodSecurityPolicy :=
  { name := "app1", namespaceName := "",
    labels := demoMap "ext" "1", annotations := demoMap "old" "2",
    finalizers := ["keep-me"], spec := (BuildPSP crDemo).spec }

/-- A store holding only `pspOwnedExist`. -/
def storeOwnedExist : Store := { emptyStore with psps := [pspOwnedExist] }

/-- A client whose cluster-role list scan fails with message boom. -/
def fltCRFail : Faults := { noFaults with listCR := some "boom" }

/-- A client whose ServiceAccount lookup fails with a non-not-found error. -/
def fltDenied : Faults := { noFaults with getSA := some "denied" }

/-! ### Claim theorems -/

/-- Claim C1: for a descriptor whose configured policy name differs from
its derived default name, if a cluster-scoped policy with the configured
name already exists (the scan finds it, with a nonempty name), then
`ensurePSPExists` returns success with the store completely unchanged (so
no create and no update is issued and the existing policy's labels,
annotations and finalizers are untouched), and iterating the operation any
number of times leaves the store unchanged as well. -/
theorem ensurePSPExists_foreign_found_is_noop (cr : CRDObject) (s : Store)
    (p : PodSecurityPolicy)
    (hfind : s.psps.find? (fun q => q.name == cr.pspName) = some p)
    (hname : p.name ≠ "")
    (hguard : cr.pspName ≠ cr.prefixedName) :
    ensurePSPExists noFaults cr s = (Except.ok (), s) ∧
    ∀ n : Nat, (fun st => (ensurePSPExists noFaults cr st).2)^[n] s = s := by
  have h : ensurePSPExists noFaults cr s = (Except.ok (), s) := by
    simp only [ensurePSPExists, noFaults, BuildPSP]
    rw [hfind]
    simp [hname, hguard, bne_iff_ne]
  refine ⟨h, fun n => Function.iterate_fixed ?_ n⟩
  simp [h]

/-- Claim C1 witness: the foreign-policy no-op at a concrete descriptor
and store. -/
theorem ensurePSPExists_foreign_found_is_noop_witness :
    ensurePSPExists noFaults crShared storeForeign = (Except.ok (), storeForeign) :=
  (ensurePSPExists_foreign_found_is_noop crShared storeForeign pspForeign rfl
    (by decide) (by decide)).1

/-- Claim C2 counterexample: with an existing ServiceAccount carrying
label team=a and annotation note=old and a descriptor desiring label
team=b and annotation note=new, the post-update stored object carries
label team=b (desired wins, not existing as claimed) and annotation
note=old (existing wins, not desired as claimed); in particular the
claim's asserted post-update values (team=a, note=new) do NOT hold. -/
theorem createServiceAccount_merge_precedence_cex :
    ((CreateServiceAccountForCRD noFaults crMergeCex storeMergeCex).2.serviceAccounts.map
      (fun a => (a.labels "team", a.annotations "note"))) = [(some "b", some "old")] ∧
    ¬(((CreateServiceAccountForCRD noFaults crMergeCex storeMergeCex).2.serviceAccounts.map
      (fun a => (a.labels "team", a.annotations "note"))) = [(some "a", some "new")]) ∧
    (some "b" : Option String) ≠ some "a" ∧
    (some "old" : Option String) ≠ some "new" :=
  ⟨rfl, by decide, by decide, by decide⟩

/-- Claim C2 as amended: on the found path of `CreateServiceAccountForCRD`
the update issued writes, at every key, the label desired-wins (the
desired label when the descriptor has one, the existing label otherwise:
an existing team=a loses to a desired team=b) and the annotation
existing-wins (the existing annotation when the existing object has one,
the desired one otherwise: an existing note=old beats a desired
note=new). -/
theorem createServiceAccount_found_merge (cr : CRDObject) (s : Store)
    (ex : ServiceAccount)
    (hfind : s.serviceAccounts.find?
      (fun a => a.name == cr.serviceAccountName && a.namespaceName == cr.nsName) = some ex) :
    CreateServiceAccountForCRD noFaults cr s =
      (Except.ok (),
        { s with serviceAccounts := updateSAList s.serviceAccounts
                  ({ buildSA cr with
                      finalizers := MergeFinalizers ex.finalizers FinalizerName,
                      annotations := labelsMerge (buildSA cr).annotations ex.annotations,
                      labels := labelsMerge ex.labels (buildSA cr).labels,
                      secrets := ex.secrets }) }) ∧
    (∀ k, labelsMerge ex.labels (buildSA cr).labels k =
      match cr.labels k with
      | some v => some v
      | none => ex.labels k) ∧
    (∀ k, labelsMerge (buildSA cr).annotations ex.annotations k =
      match ex.annotations k with
      | some v => some v
      | none => cr.annotations k) := by
  refine ⟨?_, fun k => rfl, fun k => rfl⟩
  simp only [CreateServiceAccountForCRD, noFaults]
  rw [hfind]

/-- Claim C2 witness: the amended precedence read off the post-update
store at the concrete team/note input: label team=b (desired won),
annotation note=old (existing won). -/
theorem createServiceAccount_found_merge_witness :
    ((CreateServiceAccountForCRD noFaults crMergeCex storeMergeCex).2.serviceAccounts.map
      (fun a => (a.labels "team", a.annotations "note"))) = [(some "b", some "old")] := by
  have h := createServiceAccount_found_merge crMergeCex storeMergeCex saMergeCex rfl
  rw [h.1]
  rfl

/-- Claim C3 counterexample: the desired policy's volume allow-list has
seven entries, not the six the claim states. -/
theorem buildPSP_volume_count_cex :
    (BuildPSP crDemo).spec.volumes.length = 7 ∧ (7 : Nat) ≠ 6 :=
  ⟨rfl, by decide⟩

/-- Claim C3 as amended: the desired policy built by `BuildPSP` has
exactly the hard-coded posture: privilege escalation disabled, host
networking allowed, run-as-any strategies for run-as-user, SELinux,
supplemental groups and filesystem group, all capabilities dropped, and an
allow-list of exactly SEVEN volume source types (persistentVolumeClaim,
secret, emptyDir, configMap, projected, downwardAPI, nfs). -/
theorem buildPSP_hardcoded_posture (cr : CRDObject) :
    (BuildPSP cr).spec.allowPrivilegeEscalation = some false ∧
    (BuildPSP cr).spec.hostNetwork = true ∧
    (BuildPSP cr).spec.runAsUserRule = "RunAsAny" ∧
    (BuildPSP cr).spec.seLinuxRule = "RunAsAny" ∧
    (BuildPSP cr).spec.supplementalGroupsRule = "RunAsAny" ∧
    (BuildPSP cr).spec.fsGroupRule = "RunAsAny" ∧
    (BuildPSP cr).spec.requiredDropCapabilities = ["ALL"] ∧
    (BuildPSP cr).spec.volumes = ["persistentVolumeClaim", "secret", "emptyDir",
      "configMap", "projected", "downwardAPI", "nfs"] ∧
    (BuildPSP cr).spec.volumes.length = 7 :=
  ⟨rfl, rfl, rfl, rfl, rfl, rfl, rfl, rfl, rfl⟩

/-- Claim C4: on the owned-update path (policy found with nonempty name,
configured policy name equal to the derived default name) the update
issued replaces the stored policy with an object whose annotations are
`labelsMerge` of the desired annotations with the EXISTING OBJECT'S LABELS
(not its annotations), reproducing the legacy asymmetry verbatim. -/
theorem ensurePSPExists_owned_update_merges_labels_into_annotations
    (cr : CRDObject) (s : Store) (p : PodSecurityPolicy)
    (hfind : s.psps.find? (fun q => q.name == cr.pspName) = some p)
    (hname : p.name ≠ "")
    (howned : cr.pspName = cr.prefixedName) :
    ensurePSPExists noFaults cr s =
      (Except.ok (),
        { s with psps := updatePSPList s.psps
                  ({ BuildPSP cr with
                      annotations := labelsMerge (BuildPSP cr).annotations p.labels,
                      labels := labelsMerge p.labels (BuildPSP cr).labels,
                      finalizers := MergeFinalizers p.finalizers FinalizerName }) }) := by
  simp only [ensurePSPExists, noFaults]
  simp only [BuildPSP] at hfind ⊢
  rw [hfind]
  simp [hname, howned]

/-- Claim C4 witness: the owned-update merge at a concrete descriptor and
existing policy. -/
theorem ensurePSPExists_owned_update_merges_labels_into_annotations_witness :
    ensurePSPExists noFaults crDemo storeOwnedExist =
      (Except.ok (),
        { emptyStore with
            psps := updatePSPList storeOwnedExist.psps
              ({ BuildPSP crDemo with
                  annotations := labelsMerge (BuildPSP crDemo).annotations
                    pspOwnedExist.labels,
                  labels := labelsMerge pspOwnedExist.labels (BuildPSP crDemo).labels,
                  finalizers := MergeFinalizers pspOwnedExist.finalizers
                    FinalizerName }) }) :=
  ensurePSPExists_owned_update_merges_labels_into_annotations crDemo storeOwnedExist
    pspOwnedExist rfl (by decide) rfl

/-- Claim C5 counterexample: for an owning descriptor whose labels carry
x=b and whose annotations are empty, starting from the empty store, the
stored policy's annotation at x is none after the first
`EnsureAll`+`EnsureIdentity` pass but some b after the second pass: the
second call materially changes the stored policy. -/
theorem runBoth_second_call_changes_psp_cex :
    ((runBoth crDrift emptyStore).psps.map (fun p => p.annotations "x")) = [none] ∧
    ((runBoth crDrift (runBoth crDrift emptyStore)).psps.map
      (fun p => p.annotations "x")) = [some "b"] ∧
    (some "b" : Option String) ≠ none :=
  ⟨rfl, rfl, by decide⟩

/-- Claim C5 as amended: calling `EnsureAll`+`EnsureIdentity` twice from
the empty store (owning descriptor, nonempty derived name) leaves the
stored identity, cluster role and role binding identical after the second
call to their state after the first, but the stored access policy is NOT
left identical: the second call rewrites its annotations to the desired
annotations merged with the descriptor's labels; from the second call
onward the store is a fixed point (a third call changes nothing). -/
theorem runBoth_stabilizes_after_second_call (cr : CRDObject)
    (hpref : cr.prefixedName ≠ "")
    (howned : cr.pspName = cr.prefixedName) :
    (runBoth cr (runBoth cr emptyStore)).serviceAccounts =
        (runBoth cr emptyStore).serviceAccounts ∧
    (runBoth cr (runBoth cr emptyStore)).clusterRoles =
        (runBoth cr emptyStore).clusterRoles ∧
    (runBoth cr (runBoth cr emptyStore)).clusterRoleBindings =
        (runBoth cr emptyStore).clusterRoleBindings ∧
    (runBoth cr emptyStore).psps = [BuildPSP cr] ∧
    (runBoth cr (runBoth cr emptyStore)).psps =
      [{ BuildPSP cr with annotations := labelsMerge cr.annotations cr.labels }] ∧
    runBoth cr (runBoth cr (runBoth cr emptyStore)) =
      runBoth cr (runBoth cr emptyStore) := by
  have h0 := runBoth_from_empty cr
  have h1 := runBoth_step cr cr.annotations hpref howned
  have h2 := runBoth_step cr (labelsMerge cr.annotations cr.labels) hpref howned
  have e1 : ({ BuildPSP cr with annotations := cr.annotations } : PodSecurityPolicy) =
      BuildPSP cr := rfl
  rw [e1] at h1
  rw [h0, h1, h2]
  simp

/-- Claim C5 witness: stabilization from the second call on, at the
concrete drifting descriptor. -/
theorem runBoth_stabilizes_after_second_call_witness :
    runBoth crDrift (runBoth crDrift (runBoth crDrift emptyStore)) =
      runBoth crDrift (runBoth crDrift emptyStore) :=
  (runBoth_stabilizes_after_second_call crDrift (by decide) rfl).2.2.2.2.2

/-- Claim C6: for a descriptor with derived qualified name app1 and
configured policy name app1, one `EnsureAll` call against the empty store
leaves exactly one ClusterRole, named app1, carrying the single
use-podsecuritypolicies rule in API group policy with resourceNames app1,
and exactly one ClusterRoleBinding, named app1, subjecting the
ServiceAccount (descriptor's service-account name and namespace) to the
ClusterRole app1. -/
theorem ensureAll_creates_role_and_binding_app1 (cr : CRDObject)
    (h1 : cr.prefixedName = "app1") (h2 : cr.pspName = "app1") :
    (CreateOrUpdateServiceAccountWithPSP noFaults cr emptyStore).2.clusterRoles =
      [{ name := "app1", namespaceName := cr.nsName, labels := cr.labels,
         annotations := cr.annotations, finalizers := [FinalizerName],
         rules := [{ resources := ["podsecuritypolicies"], verbs := ["use"],
                     apiGroups := ["policy"], resourceNames := ["app1"] }] }] ∧
    (CreateOrUpdateServiceAccountWithPSP noFaults cr emptyStore).2.clusterRoleBindings =
      [{ name := "app1", namespaceName := cr.nsName, labels := cr.labels,
         annotations := cr.annotations, finalizers := [FinalizerName],
         subjects := [{ kind := "ServiceAccount", name := cr.serviceAccountName,
                        namespaceName := cr.nsName }],
         roleRef := { apiGroup := "rbac.authorization.k8s.io", name := "app1",
                      kind := "ClusterRole" } }] := by
  constructor
  · show [buildClusterRoleForPSP cr] = _
    simp [buildClusterRoleForPSP, h1, h2]
  · show [buildClusterRoleBinding cr] = _
    simp [buildClusterRoleBinding, h1]

/-- Claim C6 witness: the created role and binding at the concrete app1
descriptor. -/
theorem ensureAll_creates_role_and_binding_app1_witness :
    (CreateOrUpdateServiceAccountWithPSP noFaults crDemo emptyStore).2.clusterRoles =
      [{ name := "app1", namespaceName := "ns1", labels := crDemo.labels,
         annotations := crDemo.annotations, finalizers := [FinalizerName],
         rules := [{ resources := ["podsecuritypolicies"], verbs := ["use"],
                     apiGroups := ["policy"], resourceNames := ["app1"] }] }] :=
  (ensureAll_creates_role_and_binding_app1 crDemo rfl rfl).1

/-- Claim C7: `CreateOrUpdateServiceAccountWithPSP` runs ensure-policy,
ensure-cluster-role, ensure-cluster-role-binding in that fixed order; a
failing step's error is returned immediately wrapped with its
step-identifying message, the store being exactly the failing step's
store (no later step runs); when all three succeed it returns success with
the third step's store. -/
theorem createOrUpdate_order_and_error_wrapping (flt : Faults) (cr : CRDObject)
    (s : Store) :
    (∀ e s1, ensurePSPExists flt cr s = (Except.error e, s1) →
      CreateOrUpdateServiceAccountWithPSP flt cr s =
        (Except.error ("failed check policy: " ++ e), s1)) ∧
    (∀ s1 e s2, ensurePSPExists flt cr s = (Except.ok (), s1) →
      ensureClusterRoleExists flt cr s1 = (Except.error e, s2) →
      CreateOrUpdateServiceAccountWithPSP flt cr s =
        (Except.error ("failed check clusterrole: " ++ e), s2)) ∧
    (∀ s1 s2 e s3, ensurePSPExists flt cr s = (Except.ok (), s1) →
      ensureClusterRoleExists flt cr s1 = (Except.ok (), s2) →
      ensureClusterRoleBindingExists flt cr s2 = (Except.error e, s3) →
      CreateOrUpdateServiceAccountWithPSP flt cr s =
        (Except.error ("failed check clusterrolebinding: " ++ e), s3)) ∧
    (∀ s1 s2 s3, ensurePSPExists flt cr s = (Except.ok (), s1) →
      ensureClusterRoleExists flt cr s1 = (Except.ok (), s2) →
      ensureClusterRoleBindingExists flt cr s2 = (Except.ok (), s3) →
      CreateOrUpdateServiceAccountWithPSP flt cr s = (Except.ok (), s3)) := by
  refine ⟨?_, ?_, ?_, ?_⟩
  · intro e s1 h1
    simp [CreateOrUpdateServiceAccountWithPSP, h1]
  · intro s1 e s2 h1 h2
    simp [CreateOrUpdateServiceAccountWithPSP, h1, h2]
  · intro s1 s2 e s3 h1 h2 h3
    simp [CreateOrUpdateServiceAccountWithPSP, h1, h2, h3]
  · intro s1 s2 s3 h1 h2 h3
    simp [CreateOrUpdateServiceAccountWithPSP, h1, h2, h3]

/-- Claim C7 witness: with a client whose cluster-role scan fails with
boom, the policy step's create survives, the wrapped clusterrole error is
returned, and the binding step never runs (the store still has no
bindings). -/
theorem createOrUpdate_order_and_error_wrapping_witness :
    CreateOrUpdateServiceAccountWithPSP fltCRFail crDemo emptyStore =
      (Except.error ("failed check clusterrole: " ++ "boom"),
        { emptyStore with psps := [BuildPSP crDemo] }) :=
  (createOrUpdate_order_and_error_wrapping fltCRFail crDemo emptyStore).2.1
    { emptyStore with psps := [BuildPSP crDemo] } "boom"
    { emptyStore with psps := [BuildPSP crDemo] } rfl rfl

/-- Claim C8: in `CreateServiceAccountForCRD`, a not-found lookup (the
ServiceAccount is absent) leads to creating the desired object as-is and
returning the create's own result (its error, if any, unwrapped); any
non-not-found lookup error is returned wrapped with the identifying
message and the store is left untouched (neither create nor update). -/
theorem createServiceAccount_lookup_error_handling (flt : Faults) (cr : CRDObject)
    (s : Store) :
    (flt.getSA = none →
      s.serviceAccounts.find?
        (fun a => a.name == cr.serviceAccountName && a.namespaceName == cr.nsName) = none →
      CreateServiceAccountForCRD flt cr s =
        (match flt.createSA with
         | some e => (Except.error e, s)
         | none =>
            (Except.ok (), { s with serviceAccounts := s.serviceAccounts ++ [buildSA cr] }))) ∧
    (∀ e, flt.getSA = some e →
      CreateServiceAccountForCRD flt cr s =
        (Except.error ("cannot get ServiceAccount for given CRD Object=" ++
          cr.prefixedName ++ ", err=" ++ e), s)) := by
  constructor
  · intro hget hfind
    simp [CreateServiceAccountForCRD, hget, hfind]
  · intro e hget
    simp [CreateServiceAccountForCRD, hget]

/-- Claim C8 witness: a denied lookup returns the wrapped error with the
store untouched, and a not-found lookup creates the desired object. -/
theorem createServiceAccount_lookup_error_handling_witness :
    CreateServiceAccountForCRD fltDenied crDemo storeMergeCex =
      (Except.error ("cannot get ServiceAccount for given CRD Object=" ++
        "app1" ++ ", err=" ++ "denied"), storeMergeCex) ∧
    CreateServiceAccountForCRD noFaults crDemo emptyStore =
      (Except.ok (), { emptyStore with serviceAccounts := [buildSA crDemo] }) :=
  ⟨(createServiceAccount_lookup_error_handling fltDenied crDemo storeMergeCex).2
      "denied" rfl,
   (createServiceAccount_lookup_error_handling noFaults crDemo emptyStore).1 rfl rfl⟩

/-- Claim C9: the finalizer list every update path writes is
`MergeFinalizers existing FinalizerName`: it keeps every existing
finalizer, contains the ownership token, contains it exactly once whenever
the existing list held it at most once, and applying the merge again (as a
repeated reconciliation does) changes nothing, so the token is never
duplicated by repeated runs. -/
theorem mergeFinalizers_preserves_and_unique (l : List String) :
    (∀ f ∈ l, f ∈ MergeFinalizers l FinalizerName) ∧
    FinalizerName ∈ MergeFinalizers l FinalizerName ∧
    (l.count FinalizerName ≤ 1 → (MergeFinalizers l FinalizerName).count FinalizerName = 1) ∧
    MergeFinalizers (MergeFinalizers l FinalizerName) FinalizerName =
      MergeFinalizers l FinalizerName := by
  by_cases h : FinalizerName ∈ l
  · refine ⟨fun f hf => ?_, ?_, fun hle => ?_, ?_⟩
    · simpa [MergeFinalizers, h] using hf
    · simp [MergeFinalizers, h]
    · have hpos : 0 < l.count FinalizerName := List.count_pos_iff.mpr h
      simp only [MergeFinalizers, if_pos h]
      omega
    · simp [MergeFinalizers, h]
  · refine ⟨fun f hf => ?_, ?_, fun _ => ?_, ?_⟩
    · simp [MergeFinalizers, h, hf]
    · simp [MergeFinalizers, h]
    · have hz : l.count FinalizerName = 0 := List.count_eq_zero.mpr h
      simp [MergeFinalizers, h, hz]
    · simp [MergeFinalizers, h]

/-- Claim C9 witness: an unrelated pre-existing finalizer survives, the
token is present exactly once, and merging again changes nothing. -/
theorem mergeFinalizers_preserves_and_unique_witness :
    FinalizerName ∈ MergeFinalizers ["keep-me"] FinalizerName ∧
    (MergeFinalizers ["keep-me"] FinalizerName).count FinalizerName = 1 ∧
    MergeFinalizers (MergeFinalizers ["keep-me"] FinalizerName) FinalizerName =
      MergeFinalizers ["keep-me"] FinalizerName :=
  ⟨(mergeFinalizers_preserves_and_unique ["keep-me"]).2.1,
   (mergeFinalizers_preserves_and_unique ["keep-me"]).2.2.1 (by decide),
   (mergeFinalizers_preserves_and_unique ["keep-me"]).2.2.2⟩

/-- Claim C10: the ownership guard only protects policies that exist: when
the scan finds no policy with the configured name, `ensurePSPExists`
creates the desired policy under that (foreign) name even though the
descriptor's configured policy name differs from its derived default name,
and the created object carries the configured name, the ownership
finalizer token and the hard-coded default spec. -/
theorem ensurePSPExists_foreign_absent_creates (cr : CRDObject) (s : Store)
    (hguard : cr.pspName ≠ cr.prefixedName)
    (hfind : s.psps.find? (fun q => q.name == cr.pspName) = none) :
    ensurePSPExists noFaults cr s =
      (Except.ok (), { s with psps := s.psps ++ [BuildPSP cr] }) ∧
    (BuildPSP cr).name = cr.pspName ∧
    (BuildPSP cr).finalizers = [FinalizerName] ∧
    (BuildPSP cr).spec =
      { readOnlyRootFilesystem := false,
        volumes := ["persistentVolumeClaim", "secret", "emptyDir", "configMap",
          "projected", "downwardAPI", "nfs"],
        allowPrivilegeEscalation := some false,
        hostNetwork := true,
        runAsUserRule := "RunAsAny",
        seLinuxRule := "RunAsAny",
        supplementalGroupsRule := "RunAsAny",
        fsGroupRule := "RunAsAny",
        hostPID := false,
        hostIPC := false,
        requiredDropCapabilities := ["ALL"] } := by
  refine ⟨?_, rfl, rfl, rfl⟩
  simp only [ensurePSPExists, noFaults, BuildPSP]
  rw [hfind]

/-- Claim C10 witness: the foreign-name create at a concrete descriptor
against the empty store. -/
theorem ensurePSPExists_foreign_absent_creates_witness :
    ensurePSPExists noFaults crShared emptyStore =
      (Except.ok (), { emptyStore with psps := [BuildPSP crShared] }) :=
  (ensurePSPExists_foreign_absent_creates crShared emptyStore (by decide) rfl).1
